import Mathlib

/-!
Verification development for the MORPH-DETECT-SYSTEM backend.

The definitions below are a shallow embedding of the Python sources in
backen/app.py and backen/morph_detect_selfmad_official.py.  Machine floats
are modelled as exact rationals where only ordering and arithmetic on
literal thresholds matter, and as elements of a linear ordered field
(instantiated at the real numbers, with the exponential passed explicitly)
where the transcendental softmax and sigmoid formulas appear.  Fallible
Python code that raises and is caught is modelled with Except and Option.
-/

namespace MorphDetect

/-! ## Result interpretation layer (backen/app.py, analyze endpoints)

The two route handlers analyze_image and analyze_image_base64 share the
same interpretation code: probability extraction with default 0.0,
confidence rounding, the morphed flag from predicted_class, and the
four-band risk thresholds.  Rational numbers stand in for floats. -/

/-- Risk bands produced by the analyze endpoints. -/
inductive Risk where
  | LOW
  | MEDIUM
  | HIGH
  | CRITICAL
deriving DecidableEq

/-- Embedding of the threshold chain in app.py lines 170-177 and 298-305:
prob at least 0.9 gives CRITICAL, else at least 0.75 gives HIGH, else at
least 0.5 gives MEDIUM, else LOW. -/
def risk_level (p : ℚ) : Risk :=
  if (9:ℚ)/10 ≤ p then Risk.CRITICAL
  else if (3:ℚ)/4 ≤ p then Risk.HIGH
  else if (1:ℚ)/2 ≤ p then Risk.MEDIUM
  else Risk.LOW

/-- Round-half-to-even to an integer, the behaviour of the builtin round
used by the endpoints (modulo binary float representation, which the
rational embedding idealises). -/
def pyRound (q : ℚ) : ℤ :=
  let f : ℤ := ⌊q⌋
  let r : ℚ := q - (f : ℚ)
  if r < 1/2 then f
  else if (1:ℚ)/2 < r then f + 1
  else if f % 2 = 0 then f else f + 1

/-- Rounding to one decimal place, as in round(prob * 100.0, 1). -/
def roundTo1 (q : ℚ) : ℚ := (pyRound (q * 10) : ℚ) / 10

/-- Shape of the dict returned by detect_morphing as consumed by the
endpoints.  The interpretation code reads fields through result.get, but
the success-path log line indexes class_name and raw_logit directly, so
every field is optional here; for raw_logit, none covers both an absent
key and a None value, either of which makes the log line's float
formatting raise. -/
structure DetResultDict where
  error : Option String
  prob_morphed : Option ℚ
  predicted_class : Option ℤ
  class_name : Option String
  raw_logit : Option ℚ

/-- Embedding of the probability extraction with default 0.0 when the
prob_morphed key is absent. -/
def probOf (r : DetResultDict) : ℚ := r.prob_morphed.getD 0

/-- Embedding of round(prob * 100.0, 1). -/
def confidenceOf (r : DetResultDict) : ℚ := roundTo1 (probOf r * 100)

/-- Embedding of the equality test of the optional predicted_class field
against 1: comparing an absent key (None) with 1 yields false. -/
def isMorphedOf (r : DetResultDict) : Bool :=
  match r.predicted_class with
  | some 1 => true
  | _ => false

/-- Risk level of the analyze response, computed from the defaulted
probability. -/
def riskOf (r : DetResultDict) : Risk := risk_level (probOf r)

/-- Responses of the analyze endpoints restricted to the fields the claims
talk about: either an error payload (HTTP 500) or a success payload. -/
inductive AnalyzeResponse where
  | errorResp (msg : String)
  | success (confidence : ℚ) (is_morphed : Bool) (risk : Risk)
deriving DecidableEq

/-- Core of both analyze endpoints after detect_morphing has returned:
an error key yields the error response; otherwise the success payload is
assembled from the defaulted fields, but before it is returned the
success log line (app.py lines 231 and 354) indexes the class_name and
raw_logit keys directly and formats raw_logit as a float, so if either
is missing the raised KeyError or TypeError is caught by the outer
except and the endpoint answers with the 500 error response instead (the
exact exception text is not modelled). -/
def analyzeResponse (r : DetResultDict) : AnalyzeResponse :=
  match r.error with
  | some e => AnalyzeResponse.errorResp ("Detection failed: " ++ e)
  | none =>
    match r.class_name, r.raw_logit with
    | some _, some _ =>
      AnalyzeResponse.success (confidenceOf r) (isMorphedOf r) (riskOf r)
    | _, _ => AnalyzeResponse.errorResp "Analysis failed: missing result key"

/-! ## History store (backen/app.py, get_history and the persist blocks)

The durable artifact history.json is in one of three states: missing,
present but unparsable, or present with a parsed list of records.  Records
are abstracted to an arbitrary type. -/

/-- State of the persisted history artifact. -/
inductive Artifact (α : Type) where
  | missing : Artifact α
  | corrupt : Artifact α
  | valid (entries : List α) : Artifact α

/-- Embedding of the read step inside the persist blocks (app.py lines
203-209 and 328-334): a missing file gives the empty list and a corrupt
file is swallowed by the inner try into the empty list. -/
def readHistoryForRecord {α : Type} : Artifact α → List α
  | Artifact.missing => []
  | Artifact.corrupt => []
  | Artifact.valid l => l

/-- Embedding of the get_history route (app.py lines 365-385): a missing
file yields success with the empty list, a parsable file yields success
with its contents, and a corrupt file makes json.load raise, which the
handler turns into an error response. -/
def get_history {α : Type} : Artifact α → Except String (List α)
  | Artifact.missing => Except.ok []
  | Artifact.corrupt => Except.error "Failed to read history"
  | Artifact.valid l => Except.ok l

/-- One record step on the stored list: history.insert(0, summary)
followed by history = history[:100]. -/
def recordStep {α : Type} (l : List α) (s : α) : List α :=
  List.take 100 (s :: l)

/-- One record step on the artifact: read (swallowing corruption),
prepend, truncate, write back. -/
def record_history {α : Type} (a : Artifact α) (s : α) : Artifact α :=
  Artifact.valid (recordStep (readHistoryForRecord a) s)

/-! ## Checkpoint loader (backen/morph_detect_selfmad_official.py)

Weight blobs are identified by natural numbers.  A deserialized
checkpoint is either a mapping, modelled as an association list, or some
other object applied directly as a state dict.  Whether applying a given
blob with load_state_dict succeeds is part of the loader input. -/

/-- Result of deserializing a checkpoint object. -/
inductive Ckpt where
  | dict (entries : List (String × Nat))
  | nonDict (w : Nat)

/-- First-match key lookup in a checkpoint mapping. -/
def lookupKey (entries : List (String × Nat)) (k : String) : Option Nat :=
  match entries with
  | [] => none
  | (k2, w) :: rest => if k2 = k then some w else lookupKey rest k

/-- Key probe of load_model and _load_from_tar_file: the model key is
checked first, then the state_dict key. -/
def selectWeights (entries : List (String × Nat)) : Option Nat :=
  match lookupKey entries "model" with
  | some w => some w
  | none => lookupKey entries "state_dict"

/-- Key probe of _load_from_pickle_file: model, then state_dict, then
weights. -/
def selectWeightsPickle (entries : List (String × Nat)) : Option Nat :=
  match lookupKey entries "model" with
  | some w => some w
  | none =>
    match lookupKey entries "state_dict" with
    | some w => some w
    | none => lookupKey entries "weights"

/-- Applying a selected blob with load_state_dict: if no blob was
selected, or applying it raises, the enclosing strategy fails. -/
def applySel (applyOk : Nat → Bool) : Option Nat → Option Nat
  | some w => if applyOk w then some w else none
  | none => none

/-- Directory tree as probed by _load_from_data_directory: an optional
data.pkl entry (itself deserializing to a checkpoint or raising) and an
optional .data subdirectory. -/
inductive Dirtree where
  | node (dataPkl : Option (Option Ckpt)) (sub : Option Dirtree)

/-- Embedding of _load_from_pickle_file: a raised pickle.load is caught
into failure, a mapping is probed for model, state_dict, weights in that
order, and any other object fails. -/
def loadFromPickle (applyOk : Nat → Bool) : Option Ckpt → Option Nat
  | none => none
  | some (Ckpt.dict e) => applySel applyOk (selectWeightsPickle e)
  | some (Ckpt.nonDict _) => none

/-- Embedding of _load_from_data_directory: a data.pkl file wins even if
loading it then fails, otherwise a .data subdirectory is recursed into,
otherwise the strategy fails. -/
def loadFromDataDir (applyOk : Nat → Bool) : Dirtree → Option Nat
  | Dirtree.node (some pk) _ => loadFromPickle applyOk pk
  | Dirtree.node none (some d) => loadFromDataDir applyOk d
  | Dirtree.node none none => none

/-- Inputs determining a run of load_model: facts about the path, the
results of the two deserializers on it, the directory trees the fallback
can probe, and which blobs load_state_dict accepts. -/
structure LoaderInput where
  isTar : Bool
  isDir : Bool
  isPkl : Bool
  torchLoad : Option Ckpt
  pickleLoad : Option Ckpt
  dirTree : Dirtree
  parentDir : Option Dirtree
  applyOk : Nat → Bool

/-- Embedding of the try block of load_model for a non-tar path
(lines 124-145): torch.load raising, a mapping without the probed keys,
a failing load_state_dict, all fall out of the try block as failure. -/
def standardLoad (inp : LoaderInput) : Option Nat :=
  match inp.torchLoad with
  | none => none
  | some (Ckpt.dict e) => applySel inp.applyOk (selectWeights e)
  | some (Ckpt.nonDict w) => applySel inp.applyOk (some w)

/-- Embedding of _load_from_tar_file (lines 156-184): same probe as the
standard path, but a non-mapping checkpoint returns False instead of
being applied directly, and every failure is caught into False. -/
def tarLoad (inp : LoaderInput) : Option Nat :=
  match inp.torchLoad with
  | none => none
  | some (Ckpt.dict e) => applySel inp.applyOk (selectWeights e)
  | some (Ckpt.nonDict _) => none

/-- Embedding of _try_alternative_loading (lines 186-206): a directory
path is scanned, a .pkl path is unpickled, otherwise the parent directory
is scanned when it exists. -/
def tryAlternative (inp : LoaderInput) : Option Nat :=
  if inp.isDir then loadFromDataDir inp.applyOk inp.dirTree
  else if inp.isPkl then loadFromPickle inp.applyOk inp.pickleLoad
  else
    match inp.parentDir with
    | some d => loadFromDataDir inp.applyOk d
    | none => none

/-- Observable outcome of load_model: weights applied and a normal
return, a normal return without any weights applied (the False branch),
or a raised RuntimeError. -/
inductive LoadOutcome where
  | applied (w : Nat)
  | returnedFalse
  | raised
deriving DecidableEq

/-- Embedding of load_model (lines 115-154): a .tar path is delegated
entirely to _load_from_tar_file and its boolean is returned; any other
path runs the standard strategy, falls back to the alternative cascade on
failure, and raises RuntimeError when everything failed. -/
def load_model (inp : LoaderInput) : LoadOutcome :=
  if inp.isTar then
    match tarLoad inp with
    | some w => LoadOutcome.applied w
    | none => LoadOutcome.returnedFalse
  else
    match standardLoad inp with
    | some w => LoadOutcome.applied w
    | none =>
      match tryAlternative inp with
      | some w => LoadOutcome.applied w
      | none => LoadOutcome.raised

/-! ## Inference engine (detect_morphing, lines 291-335)

The forward pass output row is a list of scores over a linear ordered
field; the exponential is passed explicitly so the definitions stay
executable, and the claims instantiate it with the real exponential.
Numeric failure of the float softmax, which exact arithmetic cannot
exhibit, is an explicit input flag. -/

/-- Environment of one detect_morphing call: the outcome of
preprocess_image, the outcome of the forward pass, and whether the
softmax line computes without raising. -/
structure InferEnv (K : Type) where
  preprocess : Except String Unit
  forward : Except String (List K)
  softmaxOk : Bool

/-- Successful detect_morphing payload, restricted to the fields the
claims mention. -/
structure DetectOk (K : Type) where
  raw_logit : K
  predicted_class : ℕ
  prob_morphed : K
  class_name : String

/-- Embedding of the raw_logit extraction: index 1 when the output has
length at least 2, the sole element for a length-1 output, and a raised
conversion error otherwise. -/
def rawLogitOf {K : Type} (l : List K) : Option K :=
  if 2 ≤ l.length then l[1]?
  else if l.length = 1 then l[0]?
  else none

/-- Helper for the first-occurrence argmax of numpy: the running best is
replaced only on a strictly greater score. -/
def argmaxAux {K : Type} [LinearOrder K] (bestIdx : ℕ) (best : K) (i : ℕ) :
    List K → ℕ
  | [] => bestIdx
  | x :: xs =>
    if best < x then argmaxAux i x (i + 1) xs else argmaxAux bestIdx best (i + 1) xs

/-- Embedding of np.argmax on the score row; empty input raises. -/
def argmaxIdx {K : Type} [LinearOrder K] : List K → Option ℕ
  | [] => none
  | x :: xs => some (argmaxAux 0 x 1 xs)

/-- Softmax component at an index: the exponential of the entry divided
by the sum of the exponentials of the row. -/
def softmaxAt {K : Type} [LinearOrderedField K] (expF : K → K) (l : List K)
    (i : ℕ) : K :=
  expF (l.getD i 0) / (l.map expF).sum

/-- Embedding of the prob_morphed computation: on the non-raising path
the softmax component at index 1 (index 0 for a single score), and on the
raising path the sigmoid of the raw logit. -/
def probMorphedOf {K : Type} [LinearOrderedField K] (expF : K → K)
    (smOk : Bool) (l : List K) (rl : K) : K :=
  if smOk then (if 1 < l.length then softmaxAt expF l 1 else softmaxAt expF l 0)
  else 1 / (1 + expF (-rl))

/-- Embedding of detect_morphing: any exception from preprocessing, the
forward pass, or the raw output extraction is caught by the enclosing try
and surfaces as the error dict; otherwise the success dict is built. -/
def detect_morphing {K : Type} [LinearOrderedField K] (expF : K → K)
    (env : InferEnv K) : Except String (DetectOk K) :=
  match env.preprocess with
  | Except.error e => Except.error e
  | Except.ok _ =>
    match env.forward with
    | Except.error e => Except.error e
    | Except.ok logits =>
      match rawLogitOf logits, argmaxIdx logits with
      | some rl, some pc =>
        Except.ok
          { raw_logit := rl
            predicted_class := pc
            prob_morphed := probMorphedOf expF env.softmaxOk logits rl
            class_name := if pc = 1 then "MORPHED" else "GENUINE" }
      | _, _ => Except.error "unexpected output shape"

/-! ## Preprocessing input size (constructor, lines 96-111) -/

/-- Boolean prefix test on character lists. -/
def listIsPrefixOf : List Char → List Char → Bool
  | [], _ => true
  | _ :: _, [] => false
  | a :: as, b :: bs => a == b && listIsPrefixOf as bs

/-- Boolean contiguous-sublist test on character lists. -/
def listHasInfix (needle : List Char) : List Char → Bool
  | [] => needle.isEmpty
  | b :: bs => listIsPrefixOf needle (b :: bs) || listHasInfix needle bs

/-- Embedding of the Python substring test needle in hay. -/
def strContains (hay needle : String) : Bool :=
  listHasInfix needle.data hay.data

/-- Embedding of the image_size resolution from the model type tag in the
constructor: hrnet, then efficientnet with its b0 before b4 subchecks,
then swin, then resnet, with 380 as the default. -/
def image_size (model_type : String) : ℕ :=
  if strContains model_type "hrnet" then 384
  else if strContains model_type "efficientnet" then
    (if strContains model_type "b0" then 224
     else if strContains model_type "b4" then 380
     else 224)
  else if strContains model_type "swin" then 224
  else if strContains model_type "resnet" then 224
  else 380

/-! ## Concrete inputs used by witnesses and counterexamples -/

/-- Loader input for a .tar path whose archive deserializes to a
non-mapping object, so the archive strategy applies nothing. -/
def tarFailInput : LoaderInput :=
  { isTar := true
    isDir := false
    isPkl := false
    torchLoad := some (Ckpt.nonDict 0)
    pickleLoad := none
    dirTree := Dirtree.node none none
    parentDir := none
    applyOk := fun _ => true }

/-- Loader input for a plain path whose checkpoint is a mapping holding
both a model key (blob 1) and a state_dict key (blob 2). -/
def bothKeysInput : LoaderInput :=
  { isTar := false
    isDir := false
    isPkl := false
    torchLoad := some (Ckpt.dict [("model", 1), ("state_dict", 2)])
    pickleLoad := none
    dirTree := Dirtree.node none none
    parentDir := none
    applyOk := fun _ => true }

/-- Loader input for a plain path on which every strategy fails:
torch.load raises and no fallback location exists. -/
def allFailInput : LoaderInput :=
  { isTar := false
    isDir := false
    isPkl := false
    torchLoad := none
    pickleLoad := none
    dirTree := Dirtree.node none none
    parentDir := none
    applyOk := fun _ => true }

/-- Inference environment in which preprocessing succeeds and the forward
pass raises a numeric error. -/
def envNaN : InferEnv ℝ :=
  { preprocess := Except.ok ()
    forward := Except.error "NaN propagated in forward pass"
    softmaxOk := true }

/-- Detector result dict with no error key and with every optional key,
including class_name and raw_logit, absent. -/
def emptyDetResult : DetResultDict :=
  { error := none
    prob_morphed := none
    predicted_class := none
    class_name := none
    raw_logit := none }

/-- Detector result dict with no error key, with the prob_morphed and
predicted_class keys absent, but with the class_name and raw_logit keys
present so the success log line does not raise. -/
def presentKeysResult : DetResultDict :=
  { error := none
    prob_morphed := none
    predicted_class := none
    class_name := some "GENUINE"
    raw_logit := some 0 }

/-! ## Theorems -/

/-- Claim C1: the assigned risk level is CRITICAL exactly when the
probability is at least 0.9, HIGH exactly on [0.75, 0.9), MEDIUM exactly
on [0.5, 0.75), and LOW exactly below 0.5; in particular each boundary
value falls in the higher band. -/
theorem c1_risk_level_bands (p : ℚ) :
    (risk_level p = Risk.CRITICAL ↔ (9:ℚ)/10 ≤ p) ∧
    (risk_level p = Risk.HIGH ↔ (3:ℚ)/4 ≤ p ∧ p < (9:ℚ)/10) ∧
    (risk_level p = Risk.MEDIUM ↔ (1:ℚ)/2 ≤ p ∧ p < (3:ℚ)/4) ∧
    (risk_level p = Risk.LOW ↔ p < (1:ℚ)/2) := by
  unfold risk_level
  split_ifs with h1 h2 h3 <;>
    refine ⟨?_, ?_, ?_, ?_⟩ <;>
      simp_all [not_le] <;>
        first
          | (intro h4 h5; linarith)
          | (intro h4; linarith)
          | (rintro ⟨h4, h5⟩; linarith)
          | (refine ⟨by linarith, by linarith⟩)
          | linarith

/-- Witness for claim C1 at the CRITICAL boundary value. -/
theorem c1_witness : risk_level ((9:ℚ)/10) = Risk.CRITICAL :=
  (c1_risk_level_bands ((9:ℚ)/10)).1.mpr (le_refl _)

/-- Claim C10 counterexample: on the error-free dict with the class_name
and raw_logit keys absent, the success log line raises, the outer except
answers with the 500 error response, and the response is not the success
payload the claim requires. -/
theorem c10_counterexample :
    analyzeResponse emptyDetResult =
      AnalyzeResponse.errorResp "Analysis failed: missing result key" ∧
    analyzeResponse emptyDetResult ≠
      AnalyzeResponse.success (confidenceOf emptyDetResult)
        (isMorphedOf emptyDetResult) (riskOf emptyDetResult) :=
  ⟨rfl, fun h => AnalyzeResponse.noConfusion h⟩

/-- Claim C10 amended: without an error key, an absent prob_morphed key
defaults the probability to 0, giving confidence 0 and risk LOW, and an
absent predicted_class key gives is_morphed false; the response is the
success payload when the class_name and raw_logit keys are both present,
while a missing class_name or raw_logit key makes the success log line
raise, turning the response into a 500 error instead. -/
theorem c10_missing_fields_default (r : DetResultDict) (he : r.error = none) :
    (r.prob_morphed = none → confidenceOf r = 0 ∧ riskOf r = Risk.LOW) ∧
    (r.predicted_class = none → isMorphedOf r = false) ∧
    (∀ cn rl, r.class_name = some cn → r.raw_logit = some rl →
      analyzeResponse r =
        AnalyzeResponse.success (confidenceOf r) (isMorphedOf r) (riskOf r)) ∧
    (r.class_name = none →
      analyzeResponse r =
        AnalyzeResponse.errorResp "Analysis failed: missing result key") ∧
    (r.raw_logit = none →
      analyzeResponse r =
        AnalyzeResponse.errorResp "Analysis failed: missing result key") := by
  refine ⟨fun hp => ?_, fun hc => ?_, fun cn rl hn hl => ?_, fun hn => ?_,
    fun hl => ?_⟩
  · have hprob : probOf r = 0 := by simp [probOf, hp]
    constructor
    · norm_num [confidenceOf, hprob, roundTo1, pyRound]
    · norm_num [riskOf, hprob, risk_level]
  · simp [isMorphedOf, hc]
  · simp [analyzeResponse, he, hn, hl]
  · simp [analyzeResponse, he, hn]
  · cases hcn : r.class_name <;> simp [analyzeResponse, he, hcn, hl]

/-- Witness for claim C10 on a result dict with prob_morphed and
predicted_class absent but class_name and raw_logit present. -/
theorem c10_witness :
    (confidenceOf presentKeysResult = 0 ∧ riskOf presentKeysResult = Risk.LOW) ∧
    isMorphedOf presentKeysResult = false ∧
    analyzeResponse presentKeysResult =
      AnalyzeResponse.success (confidenceOf presentKeysResult)
        (isMorphedOf presentKeysResult) (riskOf presentKeysResult) := by
  have h := c10_missing_fields_default presentKeysResult rfl
  exact ⟨h.1 rfl, h.2.1 rfl, h.2.2.1 "GENUINE" 0 rfl rfl⟩

/-- Claim C4 counterexample: on a corrupt artifact the history endpoint
returns the error response, not the empty list the claim requires. -/
theorem c4_counterexample :
    get_history (Artifact.corrupt : Artifact ℕ) =
      Except.error "Failed to read history" ∧
    get_history (Artifact.corrupt : Artifact ℕ) ≠ Except.ok [] :=
  ⟨rfl, by simp [get_history]⟩

/-- Claim C4 amended: a missing artifact makes the history endpoint
return the empty list, a corrupt artifact makes it return an error
response, and only the read step of the record path swallows corruption
into an empty log. -/
theorem c4_amended_history :
    get_history (Artifact.missing : Artifact ℕ) = Except.ok [] ∧
    get_history (Artifact.corrupt : Artifact ℕ) =
      Except.error "Failed to read history" ∧
    readHistoryForRecord (Artifact.corrupt : Artifact ℕ) = [] :=
  ⟨rfl, rfl, rfl⟩

/-- Auxiliary: truncating after an append absorbs an inner truncation. -/
theorem take_append_take {α : Type} (n : ℕ) (a b : List α) :
    List.take n (a ++ List.take n b) = List.take n (a ++ b) := by
  rw [List.take_append_eq_append_take, List.take_append_eq_append_take,
    List.take_take, inf_eq_left.mpr (Nat.sub_le n a.length)]

/-- Auxiliary: folding the record step over a bounded starting list keeps
the most recent 100 entries, newest first. -/
theorem foldl_recordStep {α : Type} (rs : List α) (l : List α)
    (hl : l.length ≤ 100) :
    List.foldl recordStep l rs = List.take 100 (rs.reverse ++ l) := by
  induction rs generalizing l with
  | nil => simp [List.take_of_length_le hl]
  | cons s rs2 ih =>
    have h1 : (recordStep l s).length ≤ 100 := by
      rw [recordStep, List.length_take]
      exact min_le_left _ _
    rw [List.foldl_cons, ih _ h1, List.reverse_cons, List.append_assoc,
      List.singleton_append, recordStep, take_append_take]

/-- Auxiliary: the stored list of a fold of record steps over a valid
artifact is the fold of the pure record step. -/
theorem foldl_record_history {α : Type} (rs : List α) (l : List α) :
    readHistoryForRecord (List.foldl record_history (Artifact.valid l) rs) =
      List.foldl recordStep l rs := by
  induction rs generalizing l with
  | nil => rfl
  | cons s rs2 ih =>
    simpa [record_history, readHistoryForRecord] using ih (recordStep l s)

/-- Auxiliary: recording a sequence starting from a missing artifact
stores exactly the most recent 100 records, newest first. -/
theorem foldl_record_missing {α : Type} (rs : List α) :
    readHistoryForRecord
        (List.foldl record_history (Artifact.missing : Artifact α) rs) =
      List.take 100 rs.reverse := by
  cases rs with
  | nil => rfl
  | cons s rs2 =>
    show readHistoryForRecord
        (List.foldl record_history (record_history Artifact.missing s) rs2) = _
    have hstep : record_history (Artifact.missing : Artifact α) s =
        Artifact.valid (recordStep [] s) := rfl
    rw [hstep, foldl_record_history,
      foldl_recordStep rs2 (recordStep [] s)
        (by rw [recordStep, List.length_take]; exact min_le_left _ _)]
    simp [recordStep]

/-- Claim C5: every record step leaves at most 100 stored entries, a run
of records from an empty store keeps exactly the most recent 100 entries
newest first, and a run of 150 records stores exactly 100 entries. -/
theorem c5_history_cap (rs : List ℕ) (a : Artifact ℕ) (s : ℕ) :
    (readHistoryForRecord (record_history a s)).length ≤ 100 ∧
    readHistoryForRecord
        (List.foldl record_history (Artifact.missing : Artifact ℕ) rs) =
      List.take 100 rs.reverse ∧
    (rs.length = 150 →
      (readHistoryForRecord
          (List.foldl record_history (Artifact.missing : Artifact ℕ) rs)).length =
        100) := by
  refine ⟨?_, foldl_record_missing rs, fun h150 => ?_⟩
  · rw [record_history, readHistoryForRecord, recordStep, List.length_take]
    exact min_le_left _ _
  · rw [foldl_record_missing, List.length_take, List.length_reverse, h150]
    norm_num

/-- Witness for claim C5: recording the 150 records 0..149 stores exactly
100 entries. -/
theorem c5_witness :
    (readHistoryForRecord
        (List.foldl record_history (Artifact.missing : Artifact ℕ)
          (List.range 150))).length = 100 :=
  (c5_history_cap (List.range 150) Artifact.missing 0).2.2 (by simp)

/-- Claim C2: on a checkpoint mapping holding both a model key and a
state_dict key, every strategy selects the model entry, so the only blob
any strategy attempts to apply is the one under the model key; the
state_dict entry is never applied. -/
theorem c2_model_before_state_dict (inp : LoaderInput)
    (e : List (String × Nat)) (wm ws : Nat)
    (hc : inp.torchLoad = some (Ckpt.dict e))
    (hm : lookupKey e "model" = some wm)
    (_hs : lookupKey e "state_dict" = some ws) :
    selectWeights e = some wm ∧
    selectWeightsPickle e = some wm ∧
    standardLoad inp = applySel inp.applyOk (some wm) ∧
    tarLoad inp = applySel inp.applyOk (some wm) ∧
    loadFromPickle inp.applyOk (some (Ckpt.dict e)) =
      applySel inp.applyOk (some wm) := by
  have h1 : selectWeights e = some wm := by simp [selectWeights, hm]
  have h2 : selectWeightsPickle e = some wm := by simp [selectWeightsPickle, hm]
  exact ⟨h1, h2, by simp [standardLoad, hc, h1], by simp [tarLoad, hc, h1],
    by simp [loadFromPickle, h2]⟩

/-- Witness for claim C2 on a mapping with model blob 1 and state_dict
blob 2: the standard and tar strategies apply blob 1. -/
theorem c2_witness :
    standardLoad bothKeysInput = some 1 ∧ tarLoad bothKeysInput = some 1 := by
  have h := c2_model_before_state_dict bothKeysInput
    [("model", 1), ("state_dict", 2)] 1 2 rfl rfl rfl
  exact ⟨by rw [h.2.2.1]; rfl, by rw [h.2.2.2.1]; rfl⟩

/-- Claim C3 counterexample: on a .tar path whose archive strategy fails
to apply weights, load_model returns False, with no weights applied and
no raised failure, contradicting the claimed exhaustion behaviour. -/
theorem c3_counterexample :
    tarLoad tarFailInput = none ∧
    load_model tarFailInput = LoadOutcome.returnedFalse ∧
    LoadOutcome.returnedFalse ≠ LoadOutcome.raised :=
  ⟨rfl, rfl, by simp⟩

/-- Claim C3 amended: for non-tar paths the cascade is as claimed, the
standard strategy falling through to the alternatives and exhaustion
raising the load failure; but a .tar path is delegated solely to the
archive strategy and, when that fails to apply weights, load_model
returns False without raising and without trying further strategies. -/
theorem c3_amended_cascade (inp : LoaderInput) :
    (inp.isTar = false → standardLoad inp = none → tryAlternative inp = none →
      load_model inp = LoadOutcome.raised) ∧
    (inp.isTar = false → ∀ w, standardLoad inp = none →
      tryAlternative inp = some w → load_model inp = LoadOutcome.applied w) ∧
    (inp.isTar = false → ∀ w, standardLoad inp = some w →
      load_model inp = LoadOutcome.applied w) ∧
    (inp.isTar = true → tarLoad inp = none →
      load_model inp = LoadOutcome.returnedFalse) ∧
    (inp.isTar = true → ∀ w, tarLoad inp = some w →
      load_model inp = LoadOutcome.applied w) := by
  refine ⟨fun ht hs ha => ?_, fun ht w hs ha => ?_, fun ht w hs => ?_,
    fun ht hta => ?_, fun ht w hta => ?_⟩
  · simp [load_model, ht, hs, ha]
  · simp [load_model, ht, hs, ha]
  · simp [load_model, ht, hs]
  · simp [load_model, ht, hta]
  · simp [load_model, ht, hta]

/-- Witness for claim C3 amended: with every strategy failing on a
non-tar path, load_model raises. -/
theorem c3_witness : load_model allFailInput = LoadOutcome.raised :=
  (c3_amended_cascade allFailInput).1 rfl rfl rfl

/-- Claim C6: when preprocessing succeeds and the forward pass raises a
numeric error, detect_morphing surfaces exactly that failure and never a
success payload. -/
theorem c6_forward_error_propagates (env : InferEnv ℝ) (e : String)
    (hp : env.preprocess = Except.ok ())
    (hf : env.forward = Except.error e) :
    detect_morphing Real.exp env = Except.error e ∧
    ∀ r : DetectOk ℝ, detect_morphing Real.exp env ≠ Except.ok r := by
  have h : detect_morphing Real.exp env = Except.error e := by
    simp [detect_morphing, hp, hf]
  exact ⟨h, fun r hr => by rw [h] at hr; exact Except.noConfusion hr⟩

/-- Witness for claim C6 on a forward pass raising a NaN error. -/
theorem c6_witness :
    detect_morphing Real.exp envNaN =
      Except.error "NaN propagated in forward pass" :=
  (c6_forward_error_propagates envNaN "NaN propagated in forward pass"
    rfl rfl).1

/-- Claim C7: on a two-score output the probability is the index-1
component of the two-class softmax, and when the softmax computation
fails it falls back to the sigmoid of the raw morphed-class logit. -/
theorem c7_softmax_with_sigmoid_fallback (a b : ℝ) :
    (detect_morphing Real.exp
        { preprocess := Except.ok ()
          forward := Except.ok [a, b]
          softmaxOk := true }).map (fun r => r.prob_morphed) =
      Except.ok (Real.exp b / (Real.exp a + Real.exp b)) ∧
    (detect_morphing Real.exp
        { preprocess := Except.ok ()
          forward := Except.ok [a, b]
          softmaxOk := false }).map (fun r => r.prob_morphed) =
      Except.ok (1 / (1 + Real.exp (-b))) := by
  constructor <;>
    simp [detect_morphing, rawLogitOf, argmaxIdx, argmaxAux, probMorphedOf,
      softmaxAt, Except.map]

/-- Claim C9: on an exact tie between the two scores the argmax is broken
toward index 0 and the class name is GENUINE. -/
theorem c9_argmax_tie_genuine (a : ℝ) (smOk : Bool) :
    (detect_morphing Real.exp
        { preprocess := Except.ok ()
          forward := Except.ok [a, a]
          softmaxOk := smOk }).map
        (fun r => (r.predicted_class, r.class_name)) =
      Except.ok (0, "GENUINE") := by
  simp [detect_morphing, rawLogitOf, argmaxIdx, argmaxAux, Except.map]

/-- Claim C8: the input size is resolved by the fixed precedence table
hrnet 384, efficientnet with b0 224 then b4 380 then 224, swin 224,
resnet 224, default 380; in particular efficientnet-b4 resolves to 380
and hrnet_w64 to 384. -/
theorem c8_image_size_table (t : String) :
    (strContains t "hrnet" = true → image_size t = 384) ∧
    (strContains t "hrnet" = false → strContains t "efficientnet" = true →
      strContains t "b0" = true → image_size t = 224) ∧
    (strContains t "hrnet" = false → strContains t "efficientnet" = true →
      strContains t "b0" = false → strContains t "b4" = true →
      image_size t = 380) ∧
    (strContains t "hrnet" = false → strContains t "efficientnet" = true →
      strContains t "b0" = false → strContains t "b4" = false →
      image_size t = 224) ∧
    (strContains t "hrnet" = false → strContains t "efficientnet" = false →
      strContains t "swin" = true → image_size t = 224) ∧
    (strContains t "hrnet" = false → strContains t "efficientnet" = false →
      strContains t "swin" = false → strContains t "resnet" = true →
      image_size t = 224) ∧
    (strContains t "hrnet" = false → strContains t "efficientnet" = false →
      strContains t "swin" = false → strContains t "resnet" = false →
      image_size t = 380) ∧
    image_size "efficientnet-b4" = 380 ∧
    image_size "hrnet_w64" = 384 := by
  refine ⟨fun h1 => ?_, fun h1 h2 h3 => ?_, fun h1 h2 h3 h4 => ?_,
    fun h1 h2 h3 h4 => ?_, fun h1 h2 h3 => ?_, fun h1 h2 h3 h4 => ?_,
    fun h1 h2 h3 h4 => ?_, rfl, rfl⟩
  · simp [image_size, h1]
  · simp [image_size, h1, h2, h3]
  · simp [image_size, h1, h2, h3, h4]
  · simp [image_size, h1, h2, h3, h4]
  · simp [image_size, h1, h2, h3]
  · simp [image_size, h1, h2, h3, h4]
  · simp [image_size, h1, h2, h3, h4]

/-- Witness for claim C8 at the hrnet_w64 tag. -/
theorem c8_witness : image_size "hrnet_w64" = 384 :=
  (c8_image_size_table "hrnet_w64").1 rfl

end MorphDetect
